import Mathlib

/-!
Verification of the record-reconciliation and description-merge core of
`sync_agile_boards` (`src/issue.py`: `Issue.update_from` and
`Issue.merge_descriptions`), via a shallow embedding.

Python strings are modelled as lists of unicode characters (`PyStr`).
`str.split(sep)` for a one-character separator, `sep.join(parts)` and
`s.startswith(g)` for the one-character marker glyph are embedded as
executable list functions with the exact Python semantics (in particular
`"".split(c) == [""]` and `"".join([]) == ""`).
-/

set_option autoImplicit false

/-- A Python string, modelled as its sequence of unicode code points. -/
abbrev PyStr := List Char

/-- The line separator used by `Issue.merge_descriptions` (`'\n'`). -/
def newline : Char := '\n'

/-- The marker glyph: lines added by the Unito sync bot start with `'┆'`. -/
def glyph : Char := '┆'

/-- Helper for `splitOnChar`: prepend a character to the first piece of a
split result (Python accumulates the current piece until the separator). -/
def consHead (x : Char) : List PyStr → List PyStr
  | [] => [[x]]
  | r :: rs => (x :: r) :: rs

/-- Python `s.split(c)` for a single-character separator `c`: every
occurrence of `c` separates two pieces, and `"".split(c) == [""]`. -/
def splitOnChar (c : Char) : PyStr → List PyStr
  | [] => [[]]
  | x :: xs => if x = c then [] :: splitOnChar c xs else consHead x (splitOnChar c xs)

/-- Python `c.join(parts)` for a single-character separator. -/
def joinWith (c : Char) : List PyStr → PyStr
  | [] => []
  | [x] => x
  | x :: y :: rest => x ++ c :: joinWith c (y :: rest)

/-- Python `line.startswith('┆')`: since the glyph is a single character
this is a test on the first character. -/
def startsWithGlyph : PyStr → Bool
  | [] => false
  | c :: _ => c = glyph

/-- Embedding of `Issue.merge_descriptions(source, sink)` (src/issue.py,
lines 59-69): if `sink` starts with the glyph, keep sink's glyph lines and
source's non-glyph lines; otherwise keep source's glyph lines and sink's
non-glyph lines; return the narrative join concatenated directly with the
marker join. -/
def merge_descriptions (source sink : PyStr) : PyStr :=
  if startsWithGlyph sink then
    let unito_link := (splitOnChar newline sink).filter startsWithGlyph
    let new_description := (splitOnChar newline source).filter (fun l => !startsWithGlyph l)
    joinWith newline new_description ++ joinWith newline unito_link
  else
    let unito_link := (splitOnChar newline source).filter startsWithGlyph
    let new_description := (splitOnChar newline sink).filter (fun l => !startsWithGlyph l)
    joinWith newline new_description ++ joinWith newline unito_link

/-- The `'┆'`-prefixed lines of a description (the Unito marker block). -/
def markerLines (s : PyStr) : List PyStr :=
  (splitOnChar newline s).filter startsWithGlyph

/-- The non-`'┆'` lines of a description (the narrative body). -/
def narrLines (s : PyStr) : List PyStr :=
  (splitOnChar newline s).filter (fun l => !startsWithGlyph l)

/-- The Python class of an issue object, read by `update_from` through
`source.__class__.__name__`. -/
inductive PyClass where
  | issue
  | jiraIssue
  | gitHubIssue
  | zenHubIssue
deriving DecidableEq, Repr

/-- Embedding of the `Issue` object state (src/issue.py `Issue.__init__`),
plus the transport attributes `headers`, `url`, `token` contributed by the
tracker subclasses, and the Python class tag (not part of `__dict__`).
Python `None` is `none`; datetimes and the `Repo` back-reference are
opaque values (their truthiness is just being non-`None`). -/
structure Issue where
  cls : PyClass
  assignees : Option (List PyStr) := none
  created : Option Int := none
  description : Option PyStr := none
  github_key : Option PyStr := none
  issue_type : Option PyStr := none
  jira_key : Option PyStr := none
  jira_sprint_id : Option PyStr := none
  github_milestone : Option PyStr := none
  github_milestone_number : Option Int := none
  github_org : Option PyStr := none
  pipeline : Option PyStr := none
  status : Option PyStr := none
  story_points : Option Int := none
  summary : Option PyStr := none
  updated : Option Int := none
  repo : Option Nat := none
  headers : Option PyStr := none
  url : Option PyStr := none
  token : Option PyStr := none
deriving DecidableEq, Repr

/-- Python truthiness of an optional string: `None` and `""` are falsy. -/
def truthyStr : Option PyStr → Bool
  | none => false
  | some s => !s.isEmpty

/-- Python truthiness of an optional int: `None` and `0` are falsy. -/
def truthyInt : Option Int → Bool
  | none => false
  | some n => n != 0

/-- Python truthiness of an optional object with no falsy values other
than `None` (datetime and `Repo` instances are always truthy). -/
def truthyObj {α : Type} : Option α → Bool := Option.isSome

/-- One entry of the `__dict__.update` comprehension in `update_from`:
the sink keeps its value unless the source value is truthy. -/
def copyField {α : Type} (truthy : Option α → Bool) (sinkV srcV : Option α) : Option α :=
  if truthy srcV then srcV else sinkV

/-- The `self.__dict__.update(...)` step of `Issue.update_from`
(src/issue.py line 43-45): copy every truthy source attribute except
`headers`, `url`, `token`, `description`, `assignees` and `repo`. -/
def copyFields (self source : Issue) : Issue :=
  { self with
    created := copyField truthyObj self.created source.created
    github_key := copyField truthyStr self.github_key source.github_key
    issue_type := copyField truthyStr self.issue_type source.issue_type
    jira_key := copyField truthyStr self.jira_key source.jira_key
    jira_sprint_id := copyField truthyStr self.jira_sprint_id source.jira_sprint_id
    github_milestone := copyField truthyStr self.github_milestone source.github_milestone
    github_milestone_number :=
      copyField truthyInt self.github_milestone_number source.github_milestone_number
    github_org := copyField truthyStr self.github_org source.github_org
    pipeline := copyField truthyStr self.pipeline source.pipeline
    status := copyField truthyStr self.status source.status
    story_points := copyField truthyInt self.story_points source.story_points
    summary := copyField truthyStr self.summary source.summary
    updated := copyField truthyObj self.updated source.updated }

/-- The ZenHub numeric-default step of `Issue.update_from` (src/issue.py
lines 47-50): a Jira source with `story_points is None` forces the sink's
story points to `0`. -/
def storyPointsStep (self source : Issue) : Issue :=
  if source.cls = PyClass.jiraIssue ∧ source.story_points = none then
    { self with story_points := some 0 }
  else self

/-- Outcome of a Python call: the function returned (with `none` standing
for Python's `None` return value) or raised `RuntimeError`. -/
inductive UpdateOutcome where
  | returned (value : Option Issue)
  | raised
deriving DecidableEq, Repr

/-- Embedding of `Issue.update_from(self, source)` (src/issue.py lines
34-57). The first component is the final state of the mutated sink object
(the mutation survives even when the call raises); the second is the call
outcome. The Python method body ends without a `return` statement, so a
non-raising call returns `None` (`UpdateOutcome.returned none`). -/
def update_from (self source : Issue) : Issue × UpdateOutcome :=
  let s1 := storyPointsStep (copyFields self source) source
  if truthyStr s1.description && truthyStr source.description then
    let merged := merge_descriptions (source.description.getD []) (s1.description.getD [])
    ({ s1 with description := some merged }, UpdateOutcome.returned none)
  else if source.cls = PyClass.gitHubIssue then
    ({ s1 with description := source.description }, UpdateOutcome.returned none)
  else
    (s1, UpdateOutcome.raised)

/-! ### Basic facts about the embedded string operations -/

theorem consHead_ne_nil (x : Char) (ls : List PyStr) : consHead x ls ≠ [] := by
  cases ls <;> simp [consHead]

theorem splitOnChar_ne_nil (c : Char) (s : PyStr) : splitOnChar c s ≠ [] := by
  induction s with
  | nil => simp [splitOnChar]
  | cons x xs ih =>
      by_cases hx : x = c
      · simp [splitOnChar, hx]
      · simpa [splitOnChar, hx] using consHead_ne_nil x (splitOnChar c xs)

theorem not_mem_of_mem_splitOnChar {c : Char} {s : PyStr} {l : PyStr}
    (h : l ∈ splitOnChar c s) : c ∉ l := by
  induction s generalizing l with
  | nil =>
      simp [splitOnChar] at h
      simp [h]
  | cons x xs ih =>
      by_cases hx : x = c
      · simp [splitOnChar, hx] at h
        rcases h with h | h
        · simp [h]
        · exact ih h
      · rcases hr : splitOnChar c xs with _ | ⟨r, rs⟩
        · exact absurd hr (splitOnChar_ne_nil c xs)
        · simp [splitOnChar, hx, hr, consHead] at h
          rcases h with h | h
          · rcases h with rfl
            have hcr : c ∉ r := ih (by simp [hr])
            simp [hcr]
            exact fun hc => hx hc.symm
          · exact ih (by simp [hr, h])

theorem splitOnChar_eq_singleton {c : Char} {s : PyStr} (h : c ∉ s) :
    splitOnChar c s = [s] := by
  induction s with
  | nil => simp [splitOnChar]
  | cons x xs ih =>
      simp at h
      have hx : ¬ x = c := fun hc => h.1 hc.symm
      rw [splitOnChar, if_neg hx, ih h.2, consHead]

theorem splitOnChar_append_cons {c : Char} {a : PyStr} (b : PyStr) (h : c ∉ a) :
    splitOnChar c (a ++ c :: b) = a :: splitOnChar c b := by
  induction a with
  | nil => simp [splitOnChar]
  | cons x a' ih =>
      simp at h
      have hx : ¬ x = c := fun hc => h.1 hc.symm
      rw [List.cons_append, splitOnChar, if_neg hx, ih h.2, consHead]

theorem splitOnChar_joinWith {c : Char} {ls : List PyStr}
    (h : ∀ l ∈ ls, c ∉ l) (hne : ls ≠ []) :
    splitOnChar c (joinWith c ls) = ls := by
  induction ls with
  | nil => exact absurd rfl hne
  | cons x ls ih =>
      cases ls with
      | nil => exact splitOnChar_eq_singleton (h x (by simp))
      | cons y rest =>
          rw [joinWith, splitOnChar_append_cons _ (h x (by simp))]
          rw [ih (fun l hl => h l (by simp [hl])) (by simp)]

theorem splitOnChar_joinWith_append {c : Char} {ns : List PyStr} (t : PyStr)
    (h : ∀ l ∈ ns, c ∉ l) (hne : ns ≠ []) :
    splitOnChar c (joinWith c ns ++ c :: t) = ns ++ splitOnChar c t := by
  induction ns with
  | nil => exact absurd rfl hne
  | cons x ns ih =>
      cases ns with
      | nil =>
          rw [joinWith, splitOnChar_append_cons _ (h x (by simp))]
          rfl
      | cons y rest =>
          rw [joinWith, List.append_assoc, List.cons_append,
            splitOnChar_append_cons _ (h x (by simp)),
            ih (fun l hl => h l (by simp [hl])) (by simp)]
          rfl

theorem joinWith_append_nil {c : Char} {ns : List PyStr} (hne : ns ≠ []) :
    joinWith c (ns ++ [[]]) = joinWith c ns ++ [c] := by
  induction ns with
  | nil => exact absurd rfl hne
  | cons x ns ih =>
      cases ns with
      | nil => simp [joinWith]
      | cons y rest =>
          have h1 : joinWith c ((x :: y :: rest) ++ [[]])
              = x ++ c :: joinWith c ((y :: rest) ++ [[]]) := rfl
          have h2 : joinWith c (x :: y :: rest) = x ++ c :: joinWith c (y :: rest) := rfl
          rw [h1, h2, ih (by simp)]
          simp

theorem startsWithGlyph_headD (s : PyStr) :
    startsWithGlyph ((splitOnChar newline s).headD []) = startsWithGlyph s := by
  cases s with
  | nil => rfl
  | cons x xs =>
      by_cases hx : x = newline
      · subst hx
        simp [splitOnChar, startsWithGlyph]
        decide
      · rcases hr : splitOnChar newline xs with _ | ⟨r, rs⟩
        · exact absurd hr (splitOnChar_ne_nil newline xs)
        · simp [splitOnChar, hx, hr, consHead, startsWithGlyph]

/-! ### Structure of `merge_descriptions` output when the sink leads with
the glyph -/

theorem markerLines_ne_nil_of_glyph {s : PyStr} (hs : startsWithGlyph s = true) :
    markerLines s ≠ [] := by
  rcases hr : splitOnChar newline s with _ | ⟨a, as⟩
  · exact absurd hr (splitOnChar_ne_nil newline s)
  · have ha : startsWithGlyph a = true := by
      have h2 := startsWithGlyph_headD s
      rw [hr] at h2
      simp only [List.headD_cons] at h2
      rw [h2, hs]
    simp [markerLines, hr, List.filter_cons, ha]

theorem merge_descriptions_of_glyph (source sink : PyStr) (hs : startsWithGlyph sink = true) :
    merge_descriptions source sink
      = joinWith newline (narrLines source) ++ joinWith newline (markerLines sink) := by
  simp only [merge_descriptions, hs, if_true]
  rfl

/-- When the sink text leads with the glyph and the source narrative is
empty or ends with an empty line (e.g. the source ends with a newline),
the merged text splits into exactly the source narrative (without its
trailing empty line) followed by the sink's marker lines. -/
theorem splitOnChar_merge_of_glyph (source sink : PyStr) (ns : List PyStr)
    (hs : startsWithGlyph sink = true)
    (hns : narrLines source = ns ++ [[]] ∨ (ns = [] ∧ narrLines source = [])) :
    splitOnChar newline (merge_descriptions source sink) = ns ++ markerLines sink := by
  have hm : ∀ l ∈ markerLines sink, newline ∉ l := fun l hl =>
    not_mem_of_mem_splitOnChar (List.mem_of_mem_filter hl)
  have hms : markerLines sink ≠ [] := markerLines_ne_nil_of_glyph hs
  have hsplit_ms : splitOnChar newline (joinWith newline (markerLines sink))
      = markerLines sink := splitOnChar_joinWith hm hms
  rw [merge_descriptions_of_glyph source sink hs]
  rcases hns with hns | ⟨rfl, hns⟩
  · have hn : ∀ l ∈ ns, newline ∉ l := by
      intro l hl
      have : l ∈ narrLines source := by
        rw [hns]
        exact List.mem_append_left _ hl
      exact not_mem_of_mem_splitOnChar (List.mem_of_mem_filter this)
    cases ns with
    | nil =>
        simp only [List.nil_append] at hns ⊢
        rw [hns]
        have hj : joinWith newline ([([] : PyStr)]) = [] := rfl
        simpa [hj] using hsplit_ms
    | cons n ns' =>
        rw [hns, joinWith_append_nil (by simp), List.append_assoc,
          List.singleton_append,
          splitOnChar_joinWith_append _ hn (by simp), hsplit_ms]
  · rw [hns]
    have hj : joinWith newline ([] : List PyStr) = [] := rfl
    simpa [hj] using hsplit_ms

theorem markerLines_merge_of_glyph (source sink : PyStr) (ns : List PyStr)
    (hs : startsWithGlyph sink = true)
    (hns : narrLines source = ns ++ [[]] ∨ (ns = [] ∧ narrLines source = [])) :
    markerLines (merge_descriptions source sink) = markerLines sink := by
  rw [markerLines, splitOnChar_merge_of_glyph source sink ns hs hns, List.filter_append]
  have h1 : ns.filter startsWithGlyph = [] := by
    rw [List.filter_eq_nil_iff]
    intro l hl
    have hmem : l ∈ narrLines source := by
      rcases hns with hns | ⟨rfl, _⟩
      · rw [hns]; exact List.mem_append_left _ hl
      · simp at hl
    have := (List.mem_filter.mp hmem).2
    simp at this
    simp [this]
  have h2 : (markerLines sink).filter startsWithGlyph = markerLines sink :=
    List.filter_eq_self.mpr (fun a ha => (List.mem_filter.mp ha).2)
  rw [h1, h2, List.nil_append]

theorem narrLines_merge_of_glyph (source sink : PyStr) (ns : List PyStr)
    (hs : startsWithGlyph sink = true)
    (hns : narrLines source = ns ++ [[]] ∨ (ns = [] ∧ narrLines source = [])) :
    narrLines (merge_descriptions source sink) = ns := by
  rw [narrLines, splitOnChar_merge_of_glyph source sink ns hs hns, List.filter_append]
  have h1 : ns.filter (fun l => !startsWithGlyph l) = ns := by
    apply List.filter_eq_self.mpr
    intro a ha
    rcases hns with hns | ⟨rfl, _⟩
    · have hmem : a ∈ narrLines source := by
        rw [hns]; exact List.mem_append_left _ ha
      exact (List.mem_filter.mp hmem).2
    · simp at ha
  have h2 : (markerLines sink).filter (fun l => !startsWithGlyph l) = [] := by
    rw [List.filter_eq_nil_iff]
    intro l hl
    have := (List.mem_filter.mp hl).2
    simp [this]
  rw [h1, h2, List.append_nil]

/-! ### Field-level description of `update_from` -/

theorem storyPointsStep_copyFields_description (a b : Issue) :
    (storyPointsStep (copyFields a b) b).description = a.description := by
  simp only [storyPointsStep]
  split_ifs <;> rfl

theorem update_from_assignees (a b : Issue) :
    ((update_from a b).1).assignees = a.assignees := by
  simp only [update_from, storyPointsStep]
  split_ifs <;> rfl

theorem update_from_repo (a b : Issue) :
    ((update_from a b).1).repo = a.repo := by
  simp only [update_from, storyPointsStep]
  split_ifs <;> rfl

theorem update_from_headers (a b : Issue) :
    ((update_from a b).1).headers = a.headers := by
  simp only [update_from, storyPointsStep]
  split_ifs <;> rfl

theorem update_from_url (a b : Issue) :
    ((update_from a b).1).url = a.url := by
  simp only [update_from, storyPointsStep]
  split_ifs <;> rfl

theorem update_from_token (a b : Issue) :
    ((update_from a b).1).token = a.token := by
  simp only [update_from, storyPointsStep]
  split_ifs <;> rfl

theorem update_from_cls (a b : Issue) :
    ((update_from a b).1).cls = a.cls := by
  simp only [update_from, storyPointsStep]
  split_ifs <;> rfl

theorem update_from_created (a b : Issue) :
    ((update_from a b).1).created = copyField truthyObj a.created b.created := by
  simp only [update_from, storyPointsStep]
  split_ifs <;> rfl

theorem update_from_github_key (a b : Issue) :
    ((update_from a b).1).github_key = copyField truthyStr a.github_key b.github_key := by
  simp only [update_from, storyPointsStep]
  split_ifs <;> rfl

theorem update_from_issue_type (a b : Issue) :
    ((update_from a b).1).issue_type = copyField truthyStr a.issue_type b.issue_type := by
  simp only [update_from, storyPointsStep]
  split_ifs <;> rfl

theorem update_from_jira_key (a b : Issue) :
    ((update_from a b).1).jira_key = copyField truthyStr a.jira_key b.jira_key := by
  simp only [update_from, storyPointsStep]
  split_ifs <;> rfl

theorem update_from_jira_sprint_id (a b : Issue) :
    ((update_from a b).1).jira_sprint_id
      = copyField truthyStr a.jira_sprint_id b.jira_sprint_id := by
  simp only [update_from, storyPointsStep]
  split_ifs <;> rfl

theorem update_from_github_milestone (a b : Issue) :
    ((update_from a b).1).github_milestone
      = copyField truthyStr a.github_milestone b.github_milestone := by
  simp only [update_from, storyPointsStep]
  split_ifs <;> rfl

theorem update_from_github_milestone_number (a b : Issue) :
    ((update_from a b).1).github_milestone_number
      = copyField truthyInt a.github_milestone_number b.github_milestone_number := by
  simp only [update_from, storyPointsStep]
  split_ifs <;> rfl

theorem update_from_github_org (a b : Issue) :
    ((update_from a b).1).github_org = copyField truthyStr a.github_org b.github_org := by
  simp only [update_from, storyPointsStep]
  split_ifs <;> rfl

theorem update_from_pipeline (a b : Issue) :
    ((update_from a b).1).pipeline = copyField truthyStr a.pipeline b.pipeline := by
  simp only [update_from, storyPointsStep]
  split_ifs <;> rfl

theorem update_from_status (a b : Issue) :
    ((update_from a b).1).status = copyField truthyStr a.status b.status := by
  simp only [update_from, storyPointsStep]
  split_ifs <;> rfl

theorem update_from_summary (a b : Issue) :
    ((update_from a b).1).summary = copyField truthyStr a.summary b.summary := by
  simp only [update_from, storyPointsStep]
  split_ifs <;> rfl

theorem update_from_updated (a b : Issue) :
    ((update_from a b).1).updated = copyField truthyObj a.updated b.updated := by
  simp only [update_from, storyPointsStep]
  split_ifs <;> rfl

theorem update_from_story_points (a b : Issue) :
    ((update_from a b).1).story_points
      = if b.cls = PyClass.jiraIssue ∧ b.story_points = none then some 0
        else copyField truthyInt a.story_points b.story_points := by
  simp only [update_from, storyPointsStep]
  split_ifs <;> rfl

theorem update_from_description (a b : Issue) :
    ((update_from a b).1).description
      = if truthyStr a.description && truthyStr b.description
        then some (merge_descriptions (b.description.getD []) (a.description.getD []))
        else if b.cls = PyClass.gitHubIssue then b.description
        else a.description := by
  simp only [update_from]
  rw [storyPointsStep_copyFields_description]
  split_ifs <;> first | rfl | exact storyPointsStep_copyFields_description a b

theorem update_from_outcome (a b : Issue) :
    (update_from a b).2
      = if truthyStr a.description && truthyStr b.description
        then UpdateOutcome.returned none
        else if b.cls = PyClass.gitHubIssue then UpdateOutcome.returned none
        else UpdateOutcome.raised := by
  simp only [update_from]
  rw [storyPointsStep_copyFields_description]
  split_ifs <;> rfl

/-! ### Auxiliary facts and concrete records -/

theorem truthyStr_some_of_ne_nil {s : PyStr} (h : s ≠ []) : truthyStr (some s) = true := by
  cases s with
  | nil => exact absurd rfl h
  | cons c cs => rfl

/-- Reference rendition of the §4.2 merge contract, written from the
spec's words: classify by whether the FIRST LINE of `sink_text` carries
the marker glyph, extract marker lines and narrative lines from every
line, output narrative join concatenated directly with marker join. -/
def merge_descriptions_spec (source sink : PyStr) : PyStr :=
  if startsWithGlyph ((splitOnChar newline sink).headD []) then
    joinWith newline ((splitOnChar newline source).filter (fun l => !startsWithGlyph l))
      ++ joinWith newline ((splitOnChar newline sink).filter startsWithGlyph)
  else
    joinWith newline ((splitOnChar newline sink).filter (fun l => !startsWithGlyph l))
      ++ joinWith newline ((splitOnChar newline source).filter startsWithGlyph)

/-- A ZenHub-side sink record holding native keys and a marker-block
description. -/
def keySink : Issue :=
  { cls := PyClass.zenHubIssue
    jira_key := some (("A").data)
    github_key := some (("B").data)
    description := some (("┆m").data) }

/-- A GitHub-side source record carrying different key values and a
non-empty description. -/
def keySource : Issue :=
  { cls := PyClass.gitHubIssue
    jira_key := some (("C").data)
    github_key := some (("D").data)
    description := some (("x\n").data) }

/-- The description-branch behaviour of `update_from` claimed by the
spec: merge when both descriptions are truthy, verbatim copy for a
GitHub-classed source otherwise, and `RuntimeError` exactly when neither
precondition holds. -/
def descriptionBranchSpec (sink source : Issue) : Prop :=
  (∀ sd srcd, sink.description = some sd → source.description = some srcd →
      sd ≠ [] → srcd ≠ [] →
      ((update_from sink source).1).description = some (merge_descriptions srcd sd)
        ∧ (update_from sink source).2 = UpdateOutcome.returned none)
  ∧ ((truthyStr sink.description && truthyStr source.description) = false →
      source.cls = PyClass.gitHubIssue →
      ((update_from sink source).1).description = source.description
        ∧ (update_from sink source).2 = UpdateOutcome.returned none)
  ∧ ((update_from sink source).2 = UpdateOutcome.raised ↔
      ((truthyStr sink.description && truthyStr source.description) = false
        ∧ source.cls ≠ PyClass.gitHubIssue))

/-- A sink with no description yet (bootstrap case). -/
def bootSink : Issue := { cls := PyClass.zenHubIssue }

/-- A GitHub-classed source carrying the body text for the bootstrap
case. -/
def bootSource : Issue :=
  { cls := PyClass.gitHubIssue, description := some (("body text").data) }

/-- C3: `merge_descriptions` agrees everywhere with the spec's reference
definition (first-line classification, per-line extraction, direct
concatenation of the two joins), and reproduces the spec's worked
example. -/
theorem merge_descriptions_matches_spec :
    (∀ source sink, merge_descriptions source sink = merge_descriptions_spec source sink)
    ∧ merge_descriptions (("line1\nline2\n┆sync-info\n").data)
        (("┆old-sync-info\nstale body\n").data)
      = ("line1\nline2\n┆old-sync-info").data := by
  constructor
  · intro s t
    simp only [merge_descriptions, merge_descriptions_spec, startsWithGlyph_headD]
  · decide

/-- C4: the three description branches of `update_from`, mutually
exclusive and evaluated in order, with the error raised exactly when
neither the merge precondition nor the GitHub-source precondition holds;
and the bootstrap instance: a `None`-description sink updated from a
GitHub-classed source with description "body text" ends with exactly that
description. -/
theorem update_from_description_branches :
    (∀ sink source, descriptionBranchSpec sink source)
    ∧ ((update_from bootSink bootSource).1).description = some (("body text").data) := by
  constructor
  · intro a b
    refine ⟨?_, ?_, ?_⟩
    · intro sd srcd h1 h2 h3 h4
      have hc : (truthyStr a.description && truthyStr b.description) = true := by
        rw [h1, h2, truthyStr_some_of_ne_nil h3, truthyStr_some_of_ne_nil h4]
        rfl
      constructor
      · rw [update_from_description, if_pos hc, h1, h2]
        rfl
      · rw [update_from_outcome, if_pos hc]
    · intro hfalse hcls
      have hneg : ¬((truthyStr a.description && truthyStr b.description) = true) := by
        rw [hfalse]
        simp
      exact ⟨by rw [update_from_description, if_neg hneg, if_pos hcls],
             by rw [update_from_outcome, if_neg hneg, if_pos hcls]⟩
    · rw [update_from_outcome]
      split_ifs with hc hg
      · simp [hc]
      · simp [hg]
      · simp only [Bool.not_eq_true] at hc
        simp [hc, hg]
  · decide

/-- C4 witness: the branch specification holds at the concrete bootstrap
records. -/
theorem update_from_description_branches_witness : descriptionBranchSpec bootSink bootSource :=
  update_from_description_branches.1 bootSink bootSource

/-- C7: a Jira-classed source with `story_points is None` always leaves
the sink with story points `0`. -/
theorem update_from_jira_story_points_default :
    ∀ sink source, source.cls = PyClass.jiraIssue → source.story_points = none →
      ((update_from sink source).1).story_points = some 0 := by
  intro a b h1 h2
  rw [update_from_story_points, if_pos ⟨h1, h2⟩]

/-- A sink with empty story points and no description. -/
def pointlessSink : Issue := { cls := PyClass.zenHubIssue }

/-- A Jira-classed source with empty story points and a description. -/
def jiraSource : Issue :=
  { cls := PyClass.jiraIssue, description := some (("ticket\n").data) }

/-- C7 witness: with both story-point fields `None` and a Jira-classed
source, the sink ends with story points `0`. -/
theorem update_from_jira_story_points_default_witness :
    ((update_from pointlessSink jiraSource).1).story_points = some 0 :=
  update_from_jira_story_points_default pointlessSink jiraSource rfl rfl

/-- C8: `update_from` is not atomic: whenever it raises, the sink has
already received the unconditional field copies and the numeric default,
and only its description is untouched. -/
theorem update_from_raises_after_mutation :
    ∀ sink source, (update_from sink source).2 = UpdateOutcome.raised →
      (update_from sink source).1 = storyPointsStep (copyFields sink source) source
        ∧ ((update_from sink source).1).description = sink.description := by
  intro a b h
  simp only [update_from] at h ⊢
  split_ifs at h ⊢
  exact ⟨rfl, storyPointsStep_copyFields_description a b⟩

/-- A descriptionless sink for the raising call. -/
def bareSink : Issue := { cls := PyClass.zenHubIssue, summary := some (("s").data) }

/-- A descriptionless Jira-classed source; updating from it raises. -/
def bareJiraSource : Issue :=
  { cls := PyClass.jiraIssue, summary := some (("t").data), status := some (("Done").data) }

/-- C8 witness: the concrete raising call has already copied the fields
and applied the numeric default when it raises. -/
theorem update_from_raises_after_mutation_witness :
    (update_from bareSink bareJiraSource).1
        = storyPointsStep (copyFields bareSink bareJiraSource) bareJiraSource
      ∧ ((update_from bareSink bareJiraSource).1).description = bareSink.description :=
  update_from_raises_after_mutation bareSink bareJiraSource (by decide)

/-- C9 counterexample: a completing call returns Python `None`, not the
mutated sink record: the method body has no `return` statement. -/
theorem update_from_returns_none_counterexample :
    (update_from bootSink bootSource).2 = UpdateOutcome.returned none
    ∧ (update_from bootSink bootSource).2
        ≠ UpdateOutcome.returned (some ((update_from bootSink bootSource).1)) := by
  decide

/-- C9 amended: every call of `update_from` that does not raise returns
Python `None`; the sink is mutated in place but never returned, so call
chaining is not supported. -/
theorem update_from_returns_none :
    ∀ sink source, (update_from sink source).2 ≠ UpdateOutcome.raised →
      (update_from sink source).2 = UpdateOutcome.returned none := by
  intro a b h
  rw [update_from_outcome] at h ⊢
  split_ifs at h ⊢
  · rfl
  · rfl
  · exact absurd rfl h

/-- C9 witness: the concrete completing call returns `None`. -/
theorem update_from_returns_none_witness :
    (update_from bootSink bootSource).2 = UpdateOutcome.returned none :=
  update_from_returns_none bootSink bootSource (by decide)

/-- C10: a GitHub-classed source never triggers the missing-description
error, and when its description is `None` that `None` is copied verbatim
onto the sink — even over a previously non-empty sink description. -/
theorem update_from_github_source_never_raises :
    ∀ sink source, source.cls = PyClass.gitHubIssue →
      (update_from sink source).2 ≠ UpdateOutcome.raised
      ∧ (source.description = none → ((update_from sink source).1).description = none) := by
  intro a b h
  constructor
  · rw [update_from_outcome]
    split_ifs with hc
    · simp
    · simp
  · intro hd
    have hc : ¬((truthyStr a.description && truthyStr b.description) = true) := by
      rw [hd]
      simp [truthyStr]
    rw [update_from_description, if_neg hc, if_pos h, hd]

/-- A sink whose description holds a marker block. -/
def markedSink : Issue :=
  { cls := PyClass.zenHubIssue, description := some (("keep\n┆m").data) }

/-- A GitHub-classed source whose description is `None`. -/
def emptyGitHubSource : Issue := { cls := PyClass.gitHubIssue }

/-- C10 witness: the concrete GitHub-sourced call completes and wipes the
marker-bearing sink description to `None`. -/
theorem update_from_github_source_never_raises_witness :
    (update_from markedSink emptyGitHubSource).2 ≠ UpdateOutcome.raised
    ∧ (emptyGitHubSource.description = none →
        ((update_from markedSink emptyGitHubSource).1).description = none) :=
  update_from_github_source_never_raises markedSink emptyGitHubSource rfl

/-! ### The field-copy frame of `update_from` (claim C1) -/

theorem copyField_of_truthy {α : Type} (t : Option α → Bool) {v : Option α}
    (sinkV : Option α) (h : t v = true) : copyField t sinkV v = v := by
  simp [copyField, h]

theorem copyField_of_falsy {α : Type} (t : Option α → Bool) {v : Option α}
    (sinkV : Option α) (h : t v = false) : copyField t sinkV v = sinkV := by
  simp [copyField, h]

/-- The field-copy frame that `update_from` actually observes: the
attributes excluded from the `__dict__.update` comprehension are kept,
every other truthy source attribute is copied (native keys included),
and falsy source attributes leave the sink value alone, except for the
story-points numeric default. -/
def reconcileFramePolicy (sink source : Issue) : Prop :=
  let r := (update_from sink source).1
  r.assignees = sink.assignees
  ∧ r.repo = sink.repo
  ∧ r.headers = sink.headers
  ∧ r.url = sink.url
  ∧ r.token = sink.token
  ∧ (truthyObj source.created = true → r.created = source.created)
  ∧ (truthyObj source.created = false → r.created = sink.created)
  ∧ (truthyStr source.github_key = true → r.github_key = source.github_key)
  ∧ (truthyStr source.github_key = false → r.github_key = sink.github_key)
  ∧ (truthyStr source.issue_type = true → r.issue_type = source.issue_type)
  ∧ (truthyStr source.issue_type = false → r.issue_type = sink.issue_type)
  ∧ (truthyStr source.jira_key = true → r.jira_key = source.jira_key)
  ∧ (truthyStr source.jira_key = false → r.jira_key = sink.jira_key)
  ∧ (truthyStr source.jira_sprint_id = true → r.jira_sprint_id = source.jira_sprint_id)
  ∧ (truthyStr source.jira_sprint_id = false → r.jira_sprint_id = sink.jira_sprint_id)
  ∧ (truthyStr source.github_milestone = true → r.github_milestone = source.github_milestone)
  ∧ (truthyStr source.github_milestone = false → r.github_milestone = sink.github_milestone)
  ∧ (truthyInt source.github_milestone_number = true →
      r.github_milestone_number = source.github_milestone_number)
  ∧ (truthyInt source.github_milestone_number = false →
      r.github_milestone_number = sink.github_milestone_number)
  ∧ (truthyStr source.github_org = true → r.github_org = source.github_org)
  ∧ (truthyStr source.github_org = false → r.github_org = sink.github_org)
  ∧ (truthyStr source.pipeline = true → r.pipeline = source.pipeline)
  ∧ (truthyStr source.pipeline = false → r.pipeline = sink.pipeline)
  ∧ (truthyStr source.status = true → r.status = source.status)
  ∧ (truthyStr source.status = false → r.status = sink.status)
  ∧ (truthyStr source.summary = true → r.summary = source.summary)
  ∧ (truthyStr source.summary = false → r.summary = sink.summary)
  ∧ (truthyObj source.updated = true → r.updated = source.updated)
  ∧ (truthyObj source.updated = false → r.updated = sink.updated)
  ∧ (truthyInt source.story_points = true → r.story_points = source.story_points)
  ∧ (truthyInt source.story_points = false →
      ¬(source.cls = PyClass.jiraIssue ∧ source.story_points = none) →
      r.story_points = sink.story_points)

/-- C1 counterexample: the native keys are NOT protected — `update_from`
overwrites both `jira_key` and `github_key` of the sink with the source's
truthy values. -/
theorem update_from_overwrites_native_keys :
    ((update_from keySink keySource).1).jira_key = some (("C").data)
    ∧ keySink.jira_key = some (("A").data)
    ∧ ((update_from keySink keySource).1).github_key = some (("D").data)
    ∧ keySink.github_key = some (("B").data) := by
  decide

/-- C1 amended: every truthy source field outside the code's excluded set
(headers, url, token, description, assignees, repo) is copied onto the
sink — the native keys `jira_key` and `github_key` included — while
`assignees`, `repo` and the transport fields are never changed, and falsy
source fields keep the sink's prior value except for the story-points
numeric default. -/
theorem update_from_frame_policy : ∀ sink source, reconcileFramePolicy sink source := by
  intro a b
  simp only [reconcileFramePolicy]
  refine ⟨update_from_assignees a b, update_from_repo a b, update_from_headers a b,
    update_from_url a b, update_from_token a b,
    fun h => (update_from_created a b).trans (copyField_of_truthy _ _ h),
    fun h => (update_from_created a b).trans (copyField_of_falsy _ _ h),
    fun h => (update_from_github_key a b).trans (copyField_of_truthy _ _ h),
    fun h => (update_from_github_key a b).trans (copyField_of_falsy _ _ h),
    fun h => (update_from_issue_type a b).trans (copyField_of_truthy _ _ h),
    fun h => (update_from_issue_type a b).trans (copyField_of_falsy _ _ h),
    fun h => (update_from_jira_key a b).trans (copyField_of_truthy _ _ h),
    fun h => (update_from_jira_key a b).trans (copyField_of_falsy _ _ h),
    fun h => (update_from_jira_sprint_id a b).trans (copyField_of_truthy _ _ h),
    fun h => (update_from_jira_sprint_id a b).trans (copyField_of_falsy _ _ h),
    fun h => (update_from_github_milestone a b).trans (copyField_of_truthy _ _ h),
    fun h => (update_from_github_milestone a b).trans (copyField_of_falsy _ _ h),
    fun h => (update_from_github_milestone_number a b).trans (copyField_of_truthy _ _ h),
    fun h => (update_from_github_milestone_number a b).trans (copyField_of_falsy _ _ h),
    fun h => (update_from_github_org a b).trans (copyField_of_truthy _ _ h),
    fun h => (update_from_github_org a b).trans (copyField_of_falsy _ _ h),
    fun h => (update_from_pipeline a b).trans (copyField_of_truthy _ _ h),
    fun h => (update_from_pipeline a b).trans (copyField_of_falsy _ _ h),
    fun h => (update_from_status a b).trans (copyField_of_truthy _ _ h),
    fun h => (update_from_status a b).trans (copyField_of_falsy _ _ h),
    fun h => (update_from_summary a b).trans (copyField_of_truthy _ _ h),
    fun h => (update_from_summary a b).trans (copyField_of_falsy _ _ h),
    fun h => (update_from_updated a b).trans (copyField_of_truthy _ _ h),
    fun h => (update_from_updated a b).trans (copyField_of_falsy _ _ h),
    ?_, ?_⟩
  · intro h
    have hne : ¬(b.cls = PyClass.jiraIssue ∧ b.story_points = none) := by
      rintro ⟨-, h2⟩
      rw [h2] at h
      exact absurd h (by decide)
    rw [update_from_story_points, if_neg hne]
    exact copyField_of_truthy _ _ h
  · intro h h2
    rw [update_from_story_points, if_neg h2]
    exact copyField_of_falsy _ _ h

/-- C1 witness: the frame policy at the concrete key-carrying records. -/
theorem update_from_frame_policy_witness : reconcileFramePolicy keySink keySource :=
  update_from_frame_policy keySink keySource

/-! ### Marker-block preservation (claims C2, C5, C6) -/

/-- C2 counterexample: a GitHub-classed source whose description is
`None` makes `update_from` overwrite a marker-bearing sink description
with `None`, deleting the marker block. -/
theorem update_from_can_drop_marker_block :
    markerLines (("keep\n┆m").data) = [("┆m").data]
    ∧ markedSink.description = some (("keep\n┆m").data)
    ∧ ((update_from markedSink emptyGitHubSource).1).description = none := by
  decide

/-- C2 amended: when both descriptions are non-empty, the sink
description leads with the marker glyph, and the source narrative is
empty or ends with an empty line (e.g. the source text ends with a line
separator), `update_from` keeps the sink's marker lines intact. -/
theorem update_from_preserves_marker_block :
    ∀ (sink source : Issue) (sd srcd : PyStr) (ns : List PyStr),
      sink.description = some sd → source.description = some srcd → srcd ≠ [] →
      startsWithGlyph sd = true →
      (narrLines srcd = ns ++ [[]] ∨ (ns = [] ∧ narrLines srcd = [])) →
      ∃ m, ((update_from sink source).1).description = some m
        ∧ markerLines m = markerLines sd := by
  intro a b sd srcd ns h1 h2 h4 h5 h6
  have h3 : sd ≠ [] := by
    intro hk
    rw [hk] at h5
    exact absurd h5 (by decide)
  have hc : (truthyStr a.description && truthyStr b.description) = true := by
    rw [h1, h2, truthyStr_some_of_ne_nil h3, truthyStr_some_of_ne_nil h4]
    rfl
  refine ⟨merge_descriptions srcd sd, ?_, ?_⟩
  · rw [update_from_description, if_pos hc, h1, h2]
    rfl
  · exact markerLines_merge_of_glyph srcd sd ns h5 h6

/-- A sink whose description is entirely the marker block. -/
def glyphSink : Issue :=
  { cls := PyClass.zenHubIssue, description := some (("┆old").data) }

/-- A Jira-classed source with a fresh narrative ending in a newline. -/
def jiraNoteSource : Issue :=
  { cls := PyClass.jiraIssue, description := some (("new\n").data) }

/-- C2 witness: the marker-preservation statement at concrete records. -/
theorem update_from_preserves_marker_block_witness :
    ∃ m, ((update_from glyphSink jiraNoteSource).1).description = some m
      ∧ markerLines m = markerLines (("┆old").data) :=
  update_from_preserves_marker_block glyphSink jiraNoteSource (("┆old").data)
    (("new\n").data) [("new").data] rfl rfl (by decide) (by decide) (Or.inl (by decide))

/-- A sink whose marker block sits after a narrative line (`update_from`
sink for the C5 counterexample). -/
def taggedSink : Issue :=
  { cls := PyClass.zenHubIssue, description := some (("text\n┆m").data) }

/-- A Jira-classed source with narrative only (no marker lines). -/
def narrativeSource : Issue :=
  { cls := PyClass.jiraIssue, description := some (("new text\n").data) }

/-- C5 counterexample: with the marker block on the sink side only but
not on the sink's first line, `update_from` deletes the sink's marker
lines and keeps the sink's narrative instead of the source's. -/
theorem update_from_marker_one_side_counterexample :
    markerLines (("text\n┆m").data) = [("┆m").data]
    ∧ markerLines (("new text\n").data) = []
    ∧ ((update_from taggedSink narrativeSource).1).description = some (("text").data)
    ∧ markerLines (("text").data) = []
    ∧ narrLines (("text").data) = [("text").data] := by
  decide

/-- C5 amended: when both descriptions are non-empty, the marker block
sits on the sink side only and on the sink's FIRST line, and the
source's narrative is empty or ends with an empty line, `update_from`
keeps the sink's marker lines and replaces the narrative with the
source's non-marker lines (minus the trailing empty separator line). -/
theorem update_from_marker_sink_leading :
    ∀ (B A : Issue) (bd ad : PyStr) (ns : List PyStr),
      B.description = some bd → A.description = some ad → ad ≠ [] →
      startsWithGlyph bd = true → markerLines ad = [] →
      (narrLines ad = ns ++ [[]] ∨ (ns = [] ∧ narrLines ad = [])) →
      ∃ m, ((update_from B A).1).description = some m
        ∧ markerLines m = markerLines bd
        ∧ narrLines m = ns := by
  intro B A bd ad ns h1 h2 h4 h5 _ h6
  have h3 : bd ≠ [] := by
    intro hk
    rw [hk] at h5
    exact absurd h5 (by decide)
  have hc : (truthyStr B.description && truthyStr A.description) = true := by
    rw [h1, h2, truthyStr_some_of_ne_nil h3, truthyStr_some_of_ne_nil h4]
    rfl
  refine ⟨merge_descriptions ad bd, ?_, ?_, ?_⟩
  · rw [update_from_description, if_pos hc, h1, h2]
    rfl
  · exact markerLines_merge_of_glyph ad bd ns h5 h6
  · exact narrLines_merge_of_glyph ad bd ns h5 h6

/-- C5 witness: the amended statement at concrete records. -/
theorem update_from_marker_sink_leading_witness :
    ∃ m, ((update_from glyphSink narrativeSource).1).description = some m
      ∧ markerLines m = markerLines (("┆old").data)
      ∧ narrLines m = [("new text").data] :=
  update_from_marker_sink_leading glyphSink narrativeSource (("┆old").data)
    (("new text\n").data) [("new text").data] rfl rfl (by decide) (by decide)
    (by decide) (Or.inl (by decide))

/-- C6 counterexample: merging a marker-carrying text with itself does
not reproduce its marker lines or narrative lines — the missing
separator in the output join fuses the marker line onto the narrative. -/
theorem merge_self_not_idempotent :
    merge_descriptions (("text\n┆m").data) (("text\n┆m").data) = ("text┆m").data
    ∧ markerLines (("text\n┆m").data) = [("┆m").data]
    ∧ markerLines (("text┆m").data) = []
    ∧ narrLines (("text\n┆m").data) = [("text").data]
    ∧ narrLines (("text┆m").data) = [("text┆m").data] := by
  decide

/-- When source and sink are the same text, both branches of
`merge_descriptions` extract the marker lines and the narrative lines
from that one text, so the output is branch-independent. -/
theorem merge_self_eq (x : PyStr) :
    merge_descriptions x x
      = joinWith newline (narrLines x) ++ joinWith newline (markerLines x) := by
  simp only [merge_descriptions]
  split_ifs <;> rfl

/-- Line structure of a self-merge: with a non-empty marker block and a
narrative that is empty or ends with an empty line, the merged text
splits into the narrative (without its trailing empty line) followed by
the marker lines. No assumption on which line the marker block starts
at is needed, since self-merge is branch-independent. -/
theorem splitOnChar_merge_self (x : PyStr) (ns : List PyStr)
    (hms : markerLines x ≠ [])
    (hns : narrLines x = ns ++ [[]] ∨ (ns = [] ∧ narrLines x = [])) :
    splitOnChar newline (merge_descriptions x x) = ns ++ markerLines x := by
  have hm : ∀ l ∈ markerLines x, newline ∉ l := fun l hl =>
    not_mem_of_mem_splitOnChar (List.mem_of_mem_filter hl)
  have hsplit_ms : splitOnChar newline (joinWith newline (markerLines x))
      = markerLines x := splitOnChar_joinWith hm hms
  rw [merge_self_eq x]
  rcases hns with hns | ⟨rfl, hns⟩
  · have hn : ∀ l ∈ ns, newline ∉ l := by
      intro l hl
      have hlx : l ∈ narrLines x := by
        rw [hns]
        exact List.mem_append_left _ hl
      exact not_mem_of_mem_splitOnChar (List.mem_of_mem_filter hlx)
    cases ns with
    | nil =>
        simp only [List.nil_append] at hns ⊢
        rw [hns]
        have hj : joinWith newline ([([] : PyStr)]) = [] := rfl
        simpa [hj] using hsplit_ms
    | cons n ns' =>
        rw [hns, joinWith_append_nil (by simp), List.append_assoc,
          List.singleton_append,
          splitOnChar_joinWith_append _ hn (by simp), hsplit_ms]
  · rw [hns]
    have hj : joinWith newline ([] : List PyStr) = [] := rfl
    simpa [hj] using hsplit_ms

theorem markerLines_merge_self (x : PyStr) (ns : List PyStr)
    (hms : markerLines x ≠ [])
    (hns : narrLines x = ns ++ [[]] ∨ (ns = [] ∧ narrLines x = [])) :
    markerLines (merge_descriptions x x) = markerLines x := by
  rw [markerLines, splitOnChar_merge_self x ns hms hns, List.filter_append]
  have h1 : ns.filter startsWithGlyph = [] := by
    rw [List.filter_eq_nil_iff]
    intro l hl
    have hmem : l ∈ narrLines x := by
      rcases hns with hns | ⟨rfl, _⟩
      · rw [hns]
        exact List.mem_append_left _ hl
      · simp at hl
    have := (List.mem_filter.mp hmem).2
    simp at this
    simp [this]
  have h2 : (markerLines x).filter startsWithGlyph = markerLines x :=
    List.filter_eq_self.mpr (fun a ha => (List.mem_filter.mp ha).2)
  rw [h1, h2, List.nil_append]

theorem narrLines_merge_self (x : PyStr) (ns : List PyStr)
    (hms : markerLines x ≠ [])
    (hns : narrLines x = ns ++ [[]] ∨ (ns = [] ∧ narrLines x = [])) :
    narrLines (merge_descriptions x x) = ns := by
  rw [narrLines, splitOnChar_merge_self x ns hms hns, List.filter_append]
  have h1 : ns.filter (fun l => !startsWithGlyph l) = ns := by
    apply List.filter_eq_self.mpr
    intro a ha
    rcases hns with hns | ⟨rfl, _⟩
    · have hmem : a ∈ narrLines x := by
        rw [hns]
        exact List.mem_append_left _ ha
      exact (List.mem_filter.mp hmem).2
    · simp at ha
  have h2 : (markerLines x).filter (fun l => !startsWithGlyph l) = [] := by
    rw [List.filter_eq_nil_iff]
    intro l hl
    have := (List.mem_filter.mp hl).2
    simp [this]
  rw [h1, h2, List.append_nil]

/-- C6 amended: for every text that contains the marker block and whose
narrative lines are empty or end with an empty line (so a line separator
stands between the narrative and what follows), self-merge reproduces
exactly the text's marker lines, and its narrative lines minus the
trailing empty separator line — wherever the marker block starts;
without that separation self-merge can lose marker lines, as the
counterexample shows. -/
theorem merge_self_idempotent_when_separated :
    ∀ (x : PyStr) (ns : List PyStr),
      markerLines x ≠ [] →
      (narrLines x = ns ++ [[]] ∨ (ns = [] ∧ narrLines x = [])) →
      markerLines (merge_descriptions x x) = markerLines x
      ∧ narrLines (merge_descriptions x x) = ns := by
  intro x ns h1 h2
  exact ⟨markerLines_merge_self x ns h1 h2, narrLines_merge_self x ns h1 h2⟩

/-- C6 witness: a text whose marker block does NOT start on the first
line but is separated from the narrative by a blank line self-merges to
the same marker lines and the narrative without the separator line. -/
theorem merge_self_idempotent_when_separated_witness :
    markerLines (merge_descriptions (("text\n\n┆m").data) (("text\n\n┆m").data))
        = markerLines (("text\n\n┆m").data)
    ∧ narrLines (merge_descriptions (("text\n\n┆m").data) (("text\n\n┆m").data))
        = [("text").data] :=
  merge_self_idempotent_when_separated (("text\n\n┆m").data) [("text").data]
    (by decide) (Or.inl (by decide))
